import Mathlib

/-!
Shallow embedding of the cyclone performance calculation engine of
`src/cyclone.py` (streamlit-cyclone).

Modelling conventions:
* Python floats are modelled as exact numbers: `ℚ` for the functions that
  use only field arithmetic, `ℝ` for `calculate_cut_size` (which takes a
  square root).
* The sentinel value `float('inf')` returned by `calculate_cut_size`
  (and tested by `np.isinf`) is modelled by the type `PyVal α`, whose
  constructors are `fin x` (a finite float) and `inf`.
* Division by zero on plain Python floats raises `ZeroDivisionError`;
  a function that can hit it is modelled with an `Option` result, `none`
  standing for the raised exception.
-/

/-- Value of a Python float variable that may hold the sentinel
`float('inf')`: either a finite number or infinity. -/
inductive PyVal (α : Type) where
  | fin (x : α) : PyVal α
  | inf : PyVal α
deriving DecidableEq

namespace PyVal

/-- Applying a positive scalar operation (such as the `* 1e6` unit
conversion) to a Python float maps infinity to infinity and acts on the
finite value otherwise; this is `map`. -/
def map {α β : Type} (f : α → β) : PyVal α → PyVal β
  | .fin x => .fin (f x)
  | .inf => .inf

end PyVal

/-!
Embedding of the static class `CycloneUnits` (src/cyclone.py lines
41-82): scalar unit conversions, over exact rationals.
-/
namespace CycloneUnits

/-- m³/s to m³/min: `flow_rate * 60`. -/
def m3_per_s_to_m3_per_min (flow_rate : ℚ) : ℚ := flow_rate * 60

/-- m³/min to m³/s: `flow_rate / 60`. -/
def m3_per_min_to_m3_per_s (flow_rate : ℚ) : ℚ := flow_rate / 60

/-- m/s to m/min: `velocity * 60`. -/
def m_per_s_to_m_per_min (velocity : ℚ) : ℚ := velocity * 60

/-- m/min to m/s: `velocity / 60`. -/
def m_per_min_to_m_per_s (velocity : ℚ) : ℚ := velocity / 60

/-- micron to meter: `size_micron * 1e-6`. -/
def micron_to_meter (size_micron : ℚ) : ℚ := size_micron * 1e-6

/-- meter to micron: `size_meter * 1e6`. -/
def meter_to_micron (size_meter : ℚ) : ℚ := size_meter * 1e6

/-- Pa to kPa: `pressure_pa / 1000`. -/
def pa_to_kpa (pressure_pa : ℚ) : ℚ := pressure_pa / 1000

/-- kPa to Pa: `pressure_kpa * 1000`. -/
def kpa_to_pa (pressure_kpa : ℚ) : ℚ := pressure_kpa * 1000

/-- The function `meter_to_micron` again, at the real-number type, as it
is applied to the (real-valued) cut-size pipeline at src/cyclone.py line
652. -/
noncomputable def meter_to_micron_real (size_meter : ℝ) : ℝ := size_meter * 1e6

end CycloneUnits

/-- Embedding of `calculate_effective_turns` (src/cyclone.py lines 85-89):
returns the fallback constant 6.0 when `inlet_height <= 0`, otherwise
`(1 / inlet_height) * (body_length + cone_length / 2)`. Total: never
divides by zero. -/
def calculate_effective_turns (inlet_height body_length cone_length : ℚ) : ℚ :=
  if inlet_height ≤ 0 then 6
  else (1 / inlet_height) * (body_length + cone_length / 2)

open Classical in
/-- Embedding of `calculate_cut_size` (src/cyclone.py lines 91-100):
returns `float('inf')` when `(particle_density - gas_density) <= 0` or
`effective_turns <= 0` or `inlet_velocity <= 0`, otherwise
`sqrt(numerator / denominator)` with
`numerator = 9 * gas_viscosity * inlet_width` and
`denominator = 2 * pi * effective_turns * inlet_velocity *
(particle_density - gas_density)`, in meters. -/
noncomputable def calculate_cut_size (inlet_width gas_viscosity inlet_velocity
    effective_turns particle_density gas_density : ℝ) : PyVal ℝ :=
  if particle_density - gas_density ≤ 0 ∨ effective_turns ≤ 0 ∨ inlet_velocity ≤ 0 then
    .inf
  else
    .fin (Real.sqrt ((9 * gas_viscosity * inlet_width) /
      (2 * Real.pi * effective_turns * inlet_velocity * (particle_density - gas_density))))

/-- Embedding of `calculate_collection_efficiency` (src/cyclone.py lines
102-108): returns `0.0` when `cut_size_micron <= 0` or is the infinite
sentinel; otherwise computes `ratio = cut_size_micron /
particle_size_micron` and returns `1 / (1 + ratio**2)`. The source has no
guard on `particle_size_micron`: when it is `0`, the division raises
`ZeroDivisionError` on plain Python floats, modelled here as `none`. -/
def calculate_collection_efficiency (particle_size_micron : ℚ)
    (cut_size_micron : PyVal ℚ) : Option ℚ :=
  match cut_size_micron with
  | .inf => some 0
  | .fin c =>
    if c ≤ 0 then some 0
    else if particle_size_micron = 0 then none
    else some (1 / (1 + (c / particle_size_micron) ^ 2))

/-- Embedding of `calculate_system_pressure_loss` (src/cyclone.py lines
110-113): `single_cyclone_loss = 0.5 * gas_density * inlet_velocity**2 *
pressure_coefficient`, returned times `series_count`. -/
def calculate_system_pressure_loss (gas_density inlet_velocity : ℚ)
    (pressure_coefficient : ℚ) (series_count : ℚ) : ℚ :=
  0.5 * gas_density * inlet_velocity ^ 2 * pressure_coefficient * series_count

/-- Embedding of `calculate_multi_cyclone_efficiency` (src/cyclone.py
lines 115-117): `1 - (1 - single_efficiency)**cyclone_count`, with the
unit count a natural number as in every call site. -/
def calculate_multi_cyclone_efficiency (single_efficiency : ℚ)
    (cyclone_count : ℕ) : ℚ :=
  1 - (1 - single_efficiency) ^ cyclone_count

/-- Embedding of the wrapper `calculate_stk50` (src/cyclone.py lines
120-122): ignores `model_type` and delegates to `calculate_cut_size`. -/
noncomputable def calculate_stk50 (a mu V_in N_turns rho_p rho_g : ℝ)
    (model_type : String) : PyVal ℝ :=
  calculate_cut_size a mu V_in N_turns rho_p rho_g

/-- Embedding of the wrapper `calculate_pressure_loss` (src/cyclone.py
lines 124-127): ignores `model_type` and `preset_option` and delegates to
`calculate_system_pressure_loss` with `pressure_coefficient = 16`. -/
def calculate_pressure_loss (model_type : String) (rho_g V_in : ℚ)
    (series_count : ℚ) (preset_option : String) : ℚ :=
  calculate_system_pressure_loss rho_g V_in 16 series_count

/-- The fixed particle distribution `image_particle_data`
(src/cyclone.py lines 813-822), as pairs `(dp_avg, Mj_percent)`. -/
def image_particle_data : List (ℚ × ℚ) :=
  [(2.5, 5), (7.5, 10), (15, 10), (30, 15), (50, 15), (70, 20), (90, 15), (100, 10)]

/-- Embedding of the per-bin efficiency aggregation loop (src/cyclone.py
lines 825-841): for each bin, `dpc_dp = cut_size_micron / dp_avg`,
`eta_single = 1 / (1 + dpc_dp**2)`, `collected_percent = eta_single *
Mj_percent`, accumulated into `total_single_collected` (a percentage). -/
def total_single_collected (cut_size_micron : ℚ) : ℚ :=
  (image_particle_data.map
    (fun b => (1 / (1 + (cut_size_micron / b.1) ^ 2)) * b.2)).sum

/-- The overall single-unit efficiency as a fraction, as the code uses it
at src/cyclone.py line 861: `single_cyclone_efficiency / 100` where
`single_cyclone_efficiency = total_single_collected`. -/
def single_cyclone_efficiency_fraction (cut_size_micron : ℚ) : ℚ :=
  total_single_collected cut_size_micron / 100

/-- Modelled from the spec (section 4.2 formula), for comparison with the
source embedding `calculate_cut_size`:
`dpc = sqrt( (9 * viscosity * inletWidth) / (2 * pi * effectiveTurns *
velocity * (particleDensity - gasDensity)) )`. -/
noncomputable def cutSize_spec (inletWidth viscosity velocity effectiveTurns
    particleDensity gasDensity : ℝ) : ℝ :=
  Real.sqrt ((9 * viscosity * inletWidth) /
    (2 * Real.pi * effectiveTurns * velocity * (particleDensity - gasDensity)))

/-- The cut-size boundary pipeline of src/cyclone.py lines 651-652:
`cut_size_meter = calculate_cut_size(...)` followed by
`cut_size_micron = CycloneUnits.meter_to_micron(cut_size_meter)`; the
conversion maps the infinite sentinel to itself (in Python,
`inf * 1e6 = inf`). -/
noncomputable def cut_size_micron_pipeline (inlet_width mu V_in
    effective_turns rho_p rho_g : ℝ) : PyVal ℝ :=
  (calculate_cut_size inlet_width mu V_in effective_turns rho_p rho_g).map
    CycloneUnits.meter_to_micron_real

/-! Theorems. -/

/-- C1: `calculate_cut_size` returns the infinite sentinel exactly when
`particle_density - gas_density ≤ 0`, or `effective_turns ≤ 0`, or
`inlet_velocity ≤ 0` (each disjunct alone suffices, by the iff), and when
none of the three holds the result is a finite value, never the
sentinel. -/
theorem cut_size_inf_iff (w mu V Ne rp rg : ℝ) :
    (calculate_cut_size w mu V Ne rp rg = PyVal.inf ↔
      rp - rg ≤ 0 ∨ Ne ≤ 0 ∨ V ≤ 0) ∧
    (¬(rp - rg ≤ 0 ∨ Ne ≤ 0 ∨ V ≤ 0) →
      ∃ x : ℝ, calculate_cut_size w mu V Ne rp rg = PyVal.fin x) := by
  unfold calculate_cut_size
  split_ifs with h
  · exact ⟨⟨fun _ => h, fun _ => rfl⟩, fun hc => absurd h hc⟩
  · refine ⟨⟨fun hEq => ?_, fun hc => absurd hc h⟩, fun _ => ⟨_, rfl⟩⟩
    exact absurd hEq (by simp)

/-- Witness for C1 at concrete inputs: with `rp - rg = 1 > 0`,
`Ne = 1 > 0`, `V = 1 > 0` the sentinel is not returned, and with `V = 0`
it is. -/
theorem cut_size_inf_iff_witness :
    calculate_cut_size 1 1 1 1 2 1 ≠ PyVal.inf ∧
    calculate_cut_size 1 1 0 1 2 1 = PyVal.inf := by
  constructor
  · intro hEq
    have h := (cut_size_inf_iff 1 1 1 1 2 1).1.mp hEq
    norm_num at h
  · exact (cut_size_inf_iff 1 1 0 1 2 1).1.mpr (Or.inr (Or.inr le_rfl))

/-- C6: `calculate_effective_turns` returns
`(1 / inlet_height) * (body_length + cone_length / 2)` for every positive
inlet height, and the fixed fallback constant `6.0` for every
`inlet_height ≤ 0` (including exactly `0`); the function is total, so it
never raises or divides by zero. -/
theorem effective_turns_props (h L c : ℚ) :
    (0 < h → calculate_effective_turns h L c = (1 / h) * (L + c / 2)) ∧
    (h ≤ 0 → calculate_effective_turns h L c = 6) := by
  constructor
  · intro hh
    unfold calculate_effective_turns
    rw [if_neg (not_le.mpr hh)]
  · intro hh
    unfold calculate_effective_turns
    rw [if_pos hh]

/-- Witness for C6: the fallback at `inlet_height = 0` and the formula at
`inlet_height = 2`. -/
theorem effective_turns_props_witness :
    calculate_effective_turns 0 3 4 = 6 ∧
    calculate_effective_turns 2 3 4 = (1 / 2) * (3 + 4 / 2) :=
  ⟨(effective_turns_props 0 3 4).2 (by norm_num),
   (effective_turns_props 2 3 4).1 (by norm_num)⟩

/-- Counterexample for C7: at `gas_density = 1.225`,
`inlet_velocity = 18.3`, `pressure_coefficient = 16`, `series_count = 1`
the returned value is exactly `3281.922` Pa, which differs from the
claimed `3284.7` Pa by `2.778` Pa — the claimed approximate value is not
the value of the formula. -/
theorem pressure_loss_scenario3_cex :
    calculate_system_pressure_loss 1.225 18.3 16 1 = 3281.922 ∧
    (3284.7 - 3281.922 : ℚ) = 2.778 ∧
    ¬(|(3281.922 : ℚ) - 3284.7| < 1 / 2) := by
  refine ⟨?_, by norm_num, ?_⟩
  · unfold calculate_system_pressure_loss
    norm_num
  · rw [abs_sub_comm, abs_of_pos (show (0 : ℚ) < 3284.7 - 3281.922 by norm_num)]
    norm_num

/-- C7 amended: `calculate_system_pressure_loss` returns exactly
`0.5 * gas_density * inlet_velocity^2 * pressure_coefficient *
series_count` for all inputs, is linear in `series_count`, and at
`gas_density = 1.225`, `velocity = 18.3`, `K = 16`, `series_count = 1`
returns exactly `3281.922` Pa (not `≈ 3284.7` Pa). -/
theorem pressure_loss_formula (rho V K n : ℚ) :
    calculate_system_pressure_loss rho V K n = 0.5 * rho * V ^ 2 * K * n ∧
    calculate_system_pressure_loss rho V K n =
      n * calculate_system_pressure_loss rho V K 1 ∧
    calculate_system_pressure_loss 1.225 18.3 16 1 = 3281.922 := by
  refine ⟨rfl, ?_, by unfold calculate_system_pressure_loss; norm_num⟩
  unfold calculate_system_pressure_loss
  ring

/-- Witness for C7 amended, at concrete inputs: linearity in
`series_count` for `series_count = 7`. -/
theorem pressure_loss_formula_witness :
    calculate_system_pressure_loss 2 3 5 7 =
      7 * calculate_system_pressure_loss 2 3 5 1 :=
  (pressure_loss_formula 2 3 5 7).2.1

/-- C9: each unit-conversion pair of `CycloneUnits` round-trips exactly
(flow rate m³/s ↔ m³/min, velocity m/s ↔ m/min, length micron ↔ meter,
pressure Pa ↔ kPa), in both directions. -/
theorem unit_conversions_round_trip (x : ℚ) :
    CycloneUnits.m3_per_min_to_m3_per_s (CycloneUnits.m3_per_s_to_m3_per_min x) = x ∧
    CycloneUnits.m3_per_s_to_m3_per_min (CycloneUnits.m3_per_min_to_m3_per_s x) = x ∧
    CycloneUnits.m_per_min_to_m_per_s (CycloneUnits.m_per_s_to_m_per_min x) = x ∧
    CycloneUnits.m_per_s_to_m_per_min (CycloneUnits.m_per_min_to_m_per_s x) = x ∧
    CycloneUnits.micron_to_meter (CycloneUnits.meter_to_micron x) = x ∧
    CycloneUnits.meter_to_micron (CycloneUnits.micron_to_meter x) = x ∧
    CycloneUnits.pa_to_kpa (CycloneUnits.kpa_to_pa x) = x ∧
    CycloneUnits.kpa_to_pa (CycloneUnits.pa_to_kpa x) = x := by
  unfold CycloneUnits.m3_per_min_to_m3_per_s CycloneUnits.m3_per_s_to_m3_per_min
    CycloneUnits.m_per_min_to_m_per_s CycloneUnits.m_per_s_to_m_per_min
    CycloneUnits.micron_to_meter CycloneUnits.meter_to_micron
    CycloneUnits.pa_to_kpa CycloneUnits.kpa_to_pa
  norm_num
  constructor
  · ring_nf
  · ring_nf

/-- C10: the model-selector arguments have no effect: `calculate_stk50`
gives the same result for any two `model_type` strings, and
`calculate_pressure_loss` gives the same result for any two `model_type`
and `preset_option` strings, always delegating with loss coefficient
`K = 16`. -/
theorem wrappers_ignore_model_selectors (a mu V_in N_turns rho_p rho_g : ℝ)
    (rho_g2 V2 n : ℚ) (m1 m2 p1 p2 : String) :
    calculate_stk50 a mu V_in N_turns rho_p rho_g m1 =
      calculate_stk50 a mu V_in N_turns rho_p rho_g m2 ∧
    calculate_pressure_loss m1 rho_g2 V2 n p1 =
      calculate_pressure_loss m2 rho_g2 V2 n p2 ∧
    calculate_stk50 a mu V_in N_turns rho_p rho_g m1 =
      calculate_cut_size a mu V_in N_turns rho_p rho_g ∧
    calculate_pressure_loss m1 rho_g2 V2 n p1 =
      calculate_system_pressure_loss rho_g2 V2 16 n :=
  ⟨rfl, rfl, rfl, rfl⟩

/-- Unfolding equation of `calculate_collection_efficiency` on a finite
cut-size value. -/
theorem collection_efficiency_fin_eq (dp c : ℚ) :
    calculate_collection_efficiency dp (PyVal.fin c) =
      if c ≤ 0 then some 0
      else if dp = 0 then none
      else some (1 / (1 + (c / dp) ^ 2)) := rfl

/-- C5: for a positive particle diameter and a finite positive cut size,
`calculate_collection_efficiency` returns `1 / (1 + (dpc/dp)^2)`, a value
in `[0, 1)`; and it returns `0` for every particle size when the cut size
is `≤ 0` or the infinite sentinel. -/
theorem collection_efficiency_props (dp c : ℚ) (hdp : 0 < dp) (hc : 0 < c) :
    calculate_collection_efficiency dp (PyVal.fin c) =
      some (1 / (1 + (c / dp) ^ 2)) ∧
    0 ≤ 1 / (1 + (c / dp) ^ 2) ∧ 1 / (1 + (c / dp) ^ 2) < 1 ∧
    (∀ d e : ℚ, e ≤ 0 →
      calculate_collection_efficiency d (PyVal.fin e) = some 0) ∧
    (∀ d : ℚ, calculate_collection_efficiency d PyVal.inf = some 0) := by
  have hratio : 0 < (c / dp) ^ 2 := pow_pos (div_pos hc hdp) 2
  refine ⟨?_, by positivity, ?_, ?_, fun d => rfl⟩
  · rw [collection_efficiency_fin_eq, if_neg (not_le.mpr hc), if_neg hdp.ne']
  · rw [div_lt_one (by linarith)]
    linarith
  · intro d e he
    rw [collection_efficiency_fin_eq, if_pos he]

/-- Witness for C5 at concrete inputs: the formula branch at
`dp = 2, dpc = 1`, the nonpositive-cut-size branch at `dpc = -1`, and the
sentinel branch. -/
theorem collection_efficiency_props_witness :
    calculate_collection_efficiency 2 (PyVal.fin 1) =
      some (1 / (1 + ((1 : ℚ) / 2) ^ 2)) ∧
    calculate_collection_efficiency 3 (PyVal.fin (-1)) = some 0 ∧
    calculate_collection_efficiency 3 PyVal.inf = some 0 :=
  ⟨(collection_efficiency_props 2 1 (by norm_num) (by norm_num)).1,
   (collection_efficiency_props 2 1 (by norm_num) (by norm_num)).2.2.2.1 3 (-1)
     (by norm_num),
   (collection_efficiency_props 2 1 (by norm_num) (by norm_num)).2.2.2.2 3⟩

/-- Counterexample for C2: at `particle_size_micron = -10 ≤ 0` and finite
positive `cut_size_micron = 10`, `calculate_collection_efficiency`
returns `1/2`, not the claimed `0` — the source has no
`particleDiameter <= 0` guard. -/
theorem collection_efficiency_negative_diameter_cex :
    calculate_collection_efficiency (-10) (PyVal.fin 10) = some (1 / 2) ∧
    ((1 : ℚ) / 2) ≠ 0 ∧ (-10 : ℚ) ≤ 0 ∧ (0 : ℚ) < 10 := by
  refine ⟨?_, by norm_num, by norm_num, by norm_num⟩
  unfold calculate_collection_efficiency
  norm_num

/-- C2 amended: for a finite positive cut size there is no guard on the
particle diameter: for every `particle_size_micron < 0` the function
returns the strictly positive value `1 / (1 + (dpc/dp)^2)` rather than
`0`, and at `particle_size_micron = 0` the division is undefined
(`ZeroDivisionError` on plain Python floats, modelled as `none`), so the
never-raises policy does not extend to this function at a zero diameter;
the remaining core calculation functions are total on all inputs. -/
theorem collection_efficiency_no_diameter_guard (dp c : ℚ)
    (hc : 0 < c) (hdp : dp < 0) :
    calculate_collection_efficiency dp (PyVal.fin c) =
      some (1 / (1 + (c / dp) ^ 2)) ∧
    0 < 1 / (1 + (c / dp) ^ 2) ∧
    calculate_collection_efficiency 0 (PyVal.fin c) = none := by
  have hne : dp ≠ 0 := hdp.ne
  have hratio : 0 < (c / dp) ^ 2 := by positivity
  refine ⟨?_, by positivity, ?_⟩
  · rw [collection_efficiency_fin_eq, if_neg (not_le.mpr hc), if_neg hne]
  · rw [collection_efficiency_fin_eq, if_neg (not_le.mpr hc), if_pos rfl]

/-- Witness for C2 amended at `dp = -10`, `dpc = 10`. -/
theorem collection_efficiency_no_diameter_guard_witness :
    calculate_collection_efficiency (-10) (PyVal.fin 10) =
      some (1 / (1 + ((10 : ℚ) / (-10)) ^ 2)) ∧
    calculate_collection_efficiency 0 (PyVal.fin 10) = none :=
  ⟨(collection_efficiency_no_diameter_guard (-10) 10 (by norm_num)
      (by norm_num)).1,
   (collection_efficiency_no_diameter_guard (-10) 10 (by norm_num)
      (by norm_num)).2.2⟩

/-- C8: for the fixed distribution bins and a cut size of 10 μm, the
aggregated overall single-unit efficiency (as the fraction
`total_single_collected / 100` used at src/cyclone.py line 861) equals
the mass-weighted sum over the bins of `Nj * (Mj_percent / 100)` with
`Nj = 1 / (1 + (cutSize / dp_avg)^2)`, and its exact rational value is
`760117487 / 915161000` (≈ 0.830583, so it is reproducible to six
decimal places). -/
theorem aggregator_scenario2 :
    single_cyclone_efficiency_fraction 10 =
      (1 / (1 + ((10 : ℚ) / 2.5) ^ 2)) * (5 / 100) +
      (1 / (1 + ((10 : ℚ) / 7.5) ^ 2)) * (10 / 100) +
      (1 / (1 + ((10 : ℚ) / 15) ^ 2)) * (10 / 100) +
      (1 / (1 + ((10 : ℚ) / 30) ^ 2)) * (15 / 100) +
      (1 / (1 + ((10 : ℚ) / 50) ^ 2)) * (15 / 100) +
      (1 / (1 + ((10 : ℚ) / 70) ^ 2)) * (20 / 100) +
      (1 / (1 + ((10 : ℚ) / 90) ^ 2)) * (15 / 100) +
      (1 / (1 + ((10 : ℚ) / 100) ^ 2)) * (10 / 100) ∧
    single_cyclone_efficiency_fraction 10 = 760117487 / 915161000 := by
  constructor
  · unfold single_cyclone_efficiency_fraction total_single_collected
      image_particle_data
    norm_num
  · unfold single_cyclone_efficiency_fraction total_single_collected
      image_particle_data
    norm_num

/-- Counterexample for C3: at `single_efficiency = 0` (which lies in
`[0,1)`) and `cyclone_count = 2 ≥ 1`, the compounded efficiency equals
the single efficiency although the unit count is not `1` — so "equality
iff unitCount = 1" fails. -/
theorem multi_cyclone_equality_cex :
    calculate_multi_cyclone_efficiency 0 2 = 0 ∧
    (0 : ℚ) ≤ 0 ∧ (0 : ℚ) < 1 ∧ (1 : ℕ) ≤ 2 ∧ (2 : ℕ) ≠ 1 := by
  refine ⟨?_, by norm_num, by norm_num, by norm_num, by norm_num⟩
  unfold calculate_multi_cyclone_efficiency
  norm_num

/-- C3 amended: `calculate_multi_cyclone_efficiency` computes
`1 - (1 - single_efficiency)^cyclone_count`; for `cyclone_count ≥ 1` and
`single_efficiency ∈ [0,1)` the result is at least the single
efficiency, with equality iff `cyclone_count = 1` or
`single_efficiency = 0` (the claimed "iff unitCount = 1" misses the
zero-efficiency case); it equals the single efficiency at
`cyclone_count = 1`, and it is monotonically non-decreasing in the unit
count and in the single efficiency. -/
theorem multi_cyclone_props (e : ℚ) (n : ℕ)
    (hn : 1 ≤ n) (h0 : 0 ≤ e) (h1 : e < 1) :
    calculate_multi_cyclone_efficiency e n = 1 - (1 - e) ^ n ∧
    e ≤ calculate_multi_cyclone_efficiency e n ∧
    (calculate_multi_cyclone_efficiency e n = e ↔ n = 1 ∨ e = 0) ∧
    calculate_multi_cyclone_efficiency e 1 = e ∧
    (∀ m, n ≤ m →
      calculate_multi_cyclone_efficiency e n ≤
        calculate_multi_cyclone_efficiency e m) ∧
    (∀ e2, e ≤ e2 → e2 < 1 →
      calculate_multi_cyclone_efficiency e n ≤
        calculate_multi_cyclone_efficiency e2 n) := by
  have hx0 : (0 : ℚ) ≤ 1 - e := by linarith
  have hx1 : (1 : ℚ) - e ≤ 1 := by linarith
  refine ⟨rfl, ?_, ?_, ?_, ?_, ?_⟩
  · have h := pow_le_of_le_one hx0 hx1 (by omega : n ≠ 0)
    unfold calculate_multi_cyclone_efficiency
    linarith
  · constructor
    · intro hEq
      have hxx : (1 - e) ^ n = 1 - e := by
        unfold calculate_multi_cyclone_efficiency at hEq
        linarith
      by_contra hcon
      push_neg at hcon
      have hlt : (1 - e) ^ n < 1 - e :=
        pow_lt_self_of_lt_one₀ (by cases lt_or_eq_of_le h0 with
          | inl h => linarith
          | inr h => exact absurd h.symm hcon.2) (by
            cases lt_or_eq_of_le h0 with
            | inl h => linarith
            | inr h => exact absurd h.symm hcon.2)
          (by omega)
      linarith
    · intro hOr
      cases hOr with
      | inl h =>
        subst h
        unfold calculate_multi_cyclone_efficiency
        rw [pow_one]
        ring
      | inr h =>
        subst h
        unfold calculate_multi_cyclone_efficiency
        rw [sub_zero, one_pow, sub_self]
  · unfold calculate_multi_cyclone_efficiency
    rw [pow_one]
    ring
  · intro m hm
    have h := pow_le_pow_of_le_one hx0 hx1 hm
    unfold calculate_multi_cyclone_efficiency
    linarith
  · intro e2 he he2
    have h : (1 - e2) ^ n ≤ (1 - e) ^ n :=
      pow_le_pow_left₀ (by linarith) (by linarith) n
    unfold calculate_multi_cyclone_efficiency
    linarith

/-- Witness for C3 amended at `single_efficiency = 1/2`,
`cyclone_count = 2`, with the monotonicity conjuncts instantiated at
`m = 3` and `e2 = 3/4`. -/
theorem multi_cyclone_props_witness :
    ((1 : ℚ) / 2) ≤ calculate_multi_cyclone_efficiency (1 / 2) 2 ∧
    calculate_multi_cyclone_efficiency (1 / 2) 1 = 1 / 2 ∧
    calculate_multi_cyclone_efficiency (1 / 2) 2 ≤
      calculate_multi_cyclone_efficiency (1 / 2) 3 ∧
    calculate_multi_cyclone_efficiency (1 / 2) 2 ≤
      calculate_multi_cyclone_efficiency (3 / 4) 2 :=
  ⟨(multi_cyclone_props (1 / 2) 2 (by norm_num) (by norm_num) (by norm_num)).2.1,
   (multi_cyclone_props (1 / 2) 2 (by norm_num) (by norm_num) (by norm_num)).2.2.2.1,
   (multi_cyclone_props (1 / 2) 2 (by norm_num) (by norm_num)
     (by norm_num)).2.2.2.2.1 3 (by norm_num),
   (multi_cyclone_props (1 / 2) 2 (by norm_num) (by norm_num)
     (by norm_num)).2.2.2.2.2 (3 / 4) (by norm_num) (by norm_num)⟩

/-- C4: when `particle_density - gas_density > 0`, `effective_turns > 0`
and `inlet_velocity > 0`, `calculate_cut_size` returns exactly the spec
formula `sqrt((9 mu w) / (2 pi Ne V (rp - rg)))` in meters, and the
`* 1e6` conversion to micrometers happens only at the call boundary
(src/cyclone.py lines 651-652), outside the formula. -/
theorem cut_size_formula (w mu V Ne rp rg : ℝ)
    (hrho : 0 < rp - rg) (hNe : 0 < Ne) (hV : 0 < V) :
    calculate_cut_size w mu V Ne rp rg =
      PyVal.fin (cutSize_spec w mu V Ne rp rg) ∧
    cut_size_micron_pipeline w mu V Ne rp rg =
      PyVal.fin (CycloneUnits.meter_to_micron_real
        (cutSize_spec w mu V Ne rp rg)) ∧
    CycloneUnits.meter_to_micron_real (cutSize_spec w mu V Ne rp rg) =
      cutSize_spec w mu V Ne rp rg * 1e6 := by
  have hcond : ¬(rp - rg ≤ 0 ∨ Ne ≤ 0 ∨ V ≤ 0) := by
    push_neg
    exact ⟨hrho, hNe, hV⟩
  have h1 : calculate_cut_size w mu V Ne rp rg =
      PyVal.fin (cutSize_spec w mu V Ne rp rg) := by
    unfold calculate_cut_size cutSize_spec
    rw [if_neg hcond]
  refine ⟨h1, ?_, rfl⟩
  unfold cut_size_micron_pipeline
  rw [h1]
  rfl

/-- Witness for C4 at concrete inputs `w = mu = V = Ne = 1`, `rp = 2`,
`rg = 1`. -/
theorem cut_size_formula_witness :
    calculate_cut_size 1 1 1 1 2 1 = PyVal.fin (cutSize_spec 1 1 1 1 2 1) ∧
    cut_size_micron_pipeline 1 1 1 1 2 1 =
      PyVal.fin (cutSize_spec 1 1 1 1 2 1 * 1e6) := by
  have h := cut_size_formula 1 1 1 1 2 1 (by norm_num) (by norm_num) (by norm_num)
  exact ⟨h.1, by rw [h.2.1, h.2.2]⟩
